import Mathlib

/-!
Verification of the session-memory chatbot (`session_memory_chatbot/chatbot.py`).

The development shallowly embeds the `StatefulChatbot` class as a pure state
machine: the mutable object fields become a `ChatbotState` record, each method
becomes a function from state to state (returning its result alongside), and
the remote language model is an oracle parameter.  Python truthiness of
strings and optional strings (`if session_id:`, `a or b`) is modelled
explicitly, since the source relies on it.
-/

/-- Truthiness of a Python string: nonempty. -/
def strTruthy (s : String) : Bool := s ≠ ""

/-- Truthiness of a Python `Optional[str]`: not `None` and nonempty. -/
def optStrTruthy : Option String → Bool
  | none => false
  | some s => strTruthy s

/-- Python `a or b` on two `Optional[str]` values: `a` when truthy, else `b`. -/
def pyOrOpt (a b : Option String) : Option String :=
  if optStrTruthy a = true then a else b

/-- Lookup in an insertion-ordered association list (a Python `dict` whose
keys are unique by construction of the operations below). -/
def alistLookup {α : Type} : List (String × α) → String → Option α
  | [], _ => none
  | (k, v) :: rest, key => if key = k then some v else alistLookup rest key

/-- Python `key in d` membership test. -/
def alistMem {α : Type} (l : List (String × α)) (key : String) : Bool :=
  (alistLookup l key).isSome

/-- Modify the value stored at `key`, in place (no change when the key is
absent). -/
def alistModify {α : Type} : List (String × α) → String → (α → α) → List (String × α)
  | [], _, _ => []
  | (k, v) :: rest, key, f =>
      if k = key then (k, f v) :: alistModify rest key f
      else (k, v) :: alistModify rest key f

/-- Python `d[key] = value`: overwrite in place when present, append when new
(insertion order preserved). -/
def alistSet {α : Type} (l : List (String × α)) (key : String) (v : α) :
    List (String × α) :=
  if alistMem l key = true then alistModify l key (fun _ => v) else l ++ [(key, v)]

/-- One user profile, as stored in `self.user_profiles[session_id]`:
the keys `name`, `preferences`, `conversation_history` of the Python dict. -/
structure Profile where
  name : Option String
  preferences : List (String × String)
  conversation_history : List (String × String)
deriving Repr, DecidableEq

/-- The mutable fields of `StatefulChatbot` that the conversation logic
touches: the rolling buffer (`self.session_memory`, a list of message texts,
even positions user / odd positions assistant), the standing summary container
(`self.summary_memory`, a list of saved input/output pairs), the profile
registry, the active session pointer and the turn counter. -/
structure ChatbotState where
  session_memory : List String
  summary_memory : List (String × String)
  user_profiles : List (String × Profile)
  current_session_id : Option String
  message_count : Nat
deriving Repr, DecidableEq

/-- The external model, an opaque oracle: `invoke` is `self.llm.invoke(p).content`,
`predict` is the completion produced by `self.conversation.predict` from the
current buffer contents and the (enhanced) input text. -/
structure LLM where
  invoke : String → String
  predict : List String → String → String

/-- State of a freshly constructed `StatefulChatbot` (empty memories, no
profiles, no active session, zero counter). -/
def initState : ChatbotState :=
  { session_memory := []
    summary_memory := []
    user_profiles := []
    current_session_id := none
    message_count := 0 }

/-- Modelled from the spec: the rolling buffer is bounded to the most recent
10 entries, oldest evicted first (spec 4.2).  The buffer class
`ConversationBufferWindowMemory(k=10)` is library code absent from `src/`;
the source constructs it with the comment "Keep last 10 messages in buffer". -/
def windowAppend (buf : List String) (x : String) : List String :=
  let b := buf ++ [x]
  if b.length > 10 then b.drop (b.length - 10) else b

/-- Modelled from the spec: the standing summary container "holds zero-or-more
saved summary entries", and `save_context` saves one `input`/`output` pair
(spec 3).  The container class `ConversationSummaryMemory` is library code
absent from `src/`. -/
def summarySaveContext (mem : List (String × String)) (input output : String) :
    List (String × String) :=
  mem ++ [(input, output)]

namespace StatefulChatbot

/-- `start_session(session_id, user_name=None)`: set the active pointer, reset
the counter, and (only when a truthy name is given) create the profile or
overwrite its stored name; returns the greeting string. -/
def start_session (st : ChatbotState) (session_id : String)
    (user_name : Option String) : ChatbotState × String :=
  let st1 := { st with current_session_id := some session_id, message_count := 0 }
  let st2 :=
    if optStrTruthy user_name = true then
      if alistMem st1.user_profiles session_id = false then
        { st1 with user_profiles := st1.user_profiles ++
            [(session_id,
              { name := user_name, preferences := [], conversation_history := [] })] }
      else
        let setName := fun (p : Profile) => { p with name := user_name }
        { st1 with user_profiles := alistModify st1.user_profiles session_id setName }
    else st1
  (st2, ("Session ") ++ session_id ++ (" started. Hello") ++
    (match user_name with
     | some n => if strTruthy n = true then (" ") ++ n else ""
     | none => "") ++ ("!"))

/-- `get_user_profile(session_id)`: plain dictionary lookup. -/
def get_user_profile (st : ChatbotState) (session_id : String) : Option Profile :=
  alistLookup st.user_profiles session_id

/-- `update_user_preference(session_id, key, value)`: create a blank profile
when absent, then assign `preferences[key] = value`. -/
def update_user_preference (st : ChatbotState) (session_id key value : String) :
    ChatbotState :=
  let profiles :=
    if alistMem st.user_profiles session_id = false then
      st.user_profiles ++
        [(session_id, { name := none, preferences := [], conversation_history := [] })]
    else st.user_profiles
  let setPref := fun (p : Profile) =>
    { p with preferences := alistSet p.preferences key value }
  { st with user_profiles := alistModify profiles session_id setPref }

/-- `_should_summarize()`: true iff `self.message_count > 10`. -/
def _should_summarize (st : ChatbotState) : Bool :=
  decide (st.message_count > 10)

/-- Rendering of the buffer as alternating `Human:` / `Assistant:` lines
(positional roles: even index = human). -/
def conversationText (history : List String) : String :=
  String.intercalate ("\n")
    (history.enum.map
      (fun p => (if p.1 % 2 = 0 then ("Human") else ("Assistant")) ++ (": ") ++ p.2))

/-- The fixed summarization instruction wrapped around the rendered buffer. -/
def summary_prompt (conversation_text : String) : String :=
  ("Please summarize the following conversation in 2-3 sentences, \n") ++
  ("focusing on key topics, decisions, and important information:\n\n") ++
  conversation_text

/-- `_summarize_conversation()`: when the counter exceeds 10, ask the model to
summarize the buffer, clear the buffer, save the summary pair into the
standing summary container, reset the counter, and return the summary;
otherwise do nothing and return `None`. -/
def _summarize_conversation (llm : LLM) (st : ChatbotState) :
    ChatbotState × Option String :=
  if st.message_count > 10 then
    let history := st.session_memory
    let conversation_text := conversationText history
    let summary := llm.invoke (summary_prompt conversation_text)
    ({ st with
        session_memory := []
        summary_memory := summarySaveContext st.summary_memory ("Conversation Summary") summary
        message_count := 0 }, some summary)
  else (st, none)

/-- First step of `chat`: `if session_id and session_id != self.current_session_id:
self.start_session(session_id)` (no name is passed). -/
def chatStart (st : ChatbotState) (session_id : Option String) : ChatbotState :=
  match session_id with
  | some sid =>
      if strTruthy sid = true ∧ st.current_session_id ≠ some sid then
        (start_session st sid none).1
      else st
  | none => st

/-- `if summary:` — the summary notice is printed only when the returned
summary is a truthy string. -/
def noticeOf : Option String → Option String
  | some s => if strTruthy s = true then some s else none
  | none => none

/-- The profile-context prefix built in `chat`: the name sentence when the
stored name is truthy, then the preference sentence when preferences are
nonempty. -/
def profileContext (st : ChatbotState) : String :=
  match st.current_session_id with
  | some cur =>
      match alistLookup st.user_profiles cur with
      | some profile =>
          (match profile.name with
           | some n => if strTruthy n = true then ("User\x27s name: ") ++ n ++ (". ") else ""
           | none => "") ++
          (if profile.preferences.isEmpty = false then
            ("User preferences: ") ++
              String.intercalate (", ")
                (profile.preferences.map (fun kv => kv.1 ++ (": ") ++ kv.2)) ++ (". ")
          else "")
      | none => ""
  | none => ""

/-- Last step of `chat`: `if self.current_session_id in self.user_profiles:`
append the original message and the response to the profile history. -/
def recordExchange (st : ChatbotState) (message response : String) : ChatbotState :=
  match st.current_session_id with
  | some cur =>
      if alistMem st.user_profiles cur = true then
        let addTurn := fun (p : Profile) =>
          { p with conversation_history := p.conversation_history ++ [(message, response)] }
        { st with user_profiles := alistModify st.user_profiles cur addTurn }
      else st
  | none => st

/-- Errors raised by the conversation logic: `ValueError("No active session...")`. -/
inductive ChatError where
  | invalidState
deriving Repr, DecidableEq

/-- `chat(message, session_id=None)`: optional implicit session start, the
no-active-session guard, counter increment, threshold-triggered summarization,
prompt assembly, model call (which records both texts into the rolling
buffer), history recording, and the response (paired here with the optional
summary notice that the source prints). -/
def chat (llm : LLM) (st : ChatbotState) (message : String)
    (session_id : Option String) :
    ChatbotState × Except ChatError (String × Option String) :=
  let st0 := chatStart st session_id
  if optStrTruthy st0.current_session_id = false then
    (st0, Except.error ChatError.invalidState)
  else
    let st1 := { st0 with message_count := st0.message_count + 1 }
    let sres :=
      if _should_summarize st1 = true then _summarize_conversation llm st1
      else (st1, none)
    let notice := noticeOf sres.2
    let profile_context := profileContext sres.1
    let enhanced_message :=
      if strTruthy profile_context = true then profile_context ++ message else message
    let response := llm.predict sres.1.session_memory enhanced_message
    let newBuf := windowAppend (windowAppend sres.1.session_memory enhanced_message) response
    let st3 := { sres.1 with session_memory := newBuf }
    (recordExchange st3 message response, Except.ok (response, notice))

/-- `get_conversation_history(session_id=None)`: read-only; `session_id or
self.current_session_id`, then the history when that target is truthy and has
a profile, else the empty list. -/
def get_conversation_history (st : ChatbotState) (session_id : Option String) :
    List (String × String) :=
  let target := pyOrOpt session_id st.current_session_id
  match target with
  | some t =>
      if strTruthy t = true ∧ alistMem st.user_profiles t = true then
        match alistLookup st.user_profiles t with
        | some p => p.conversation_history
        | none => []
      else []
  | none => []

/-- `clear_memory(session_id=None)`: when the target (`session_id or
self.current_session_id`) is truthy, clear the rolling buffer, the standing
summary container, the target profile history (when present), and the counter. -/
def clear_memory (st : ChatbotState) (session_id : Option String) : ChatbotState :=
  let target := pyOrOpt session_id st.current_session_id
  if optStrTruthy target = true then
    let sta := { st with session_memory := [], summary_memory := [] }
    let stb :=
      match target with
      | some t =>
          if alistMem sta.user_profiles t = true then
            let dropHist := fun (p : Profile) => { p with conversation_history := [] }
            { sta with user_profiles := alistModify sta.user_profiles t dropHist }
          else sta
      | none => sta
    { stb with message_count := 0 }
  else st

end StatefulChatbot

/-- History of a session as recorded in its profile (empty when no profile). -/
def historyOf (st : ChatbotState) (sid : String) : List (String × String) :=
  match StatefulChatbot.get_user_profile st sid with
  | some p => p.conversation_history
  | none => []

/-- `n` successive `chat` calls with the same message and no `session_id`
argument, following the state (an erroring call leaves the state unchanged). -/
def chatIter (llm : LLM) (message : String) : Nat → ChatbotState → ChatbotState
  | 0, st => st
  | n + 1, st => (StatefulChatbot.chat llm (chatIter llm message n st) message none).1

/-- A concrete deterministic oracle for witnesses: every summary is `"S"`,
every completion is `"R"`. -/
def constLLM : LLM :=
  { invoke := fun _ => ("S"), predict := fun _ _ => ("R") }

/-- Concrete state: a session started without a user name. -/
def s0 : ChatbotState := (StatefulChatbot.start_session initState ("s1") none).1

/-- Concrete state: a session started with user name `"Ann"`. -/
def sAnn : ChatbotState :=
  (StatefulChatbot.start_session initState ("s1") (some ("Ann"))).1

/-- Concrete state over the summarization threshold with a previously saved
summary still in the standing summary container. -/
def stC2 : ChatbotState :=
  { session_memory := [("u1"), ("a1")]
    summary_memory := [(("Conversation Summary"), ("old"))]
    user_profiles := []
    current_session_id := some ("s1")
    message_count := 11 }

/-- Concrete state holding a profile under the empty-string session id while
no session is active. -/
def stC8 : ChatbotState :=
  { session_memory := [("u1")]
    summary_memory := []
    user_profiles := [(("" : String),
      { name := none
        preferences := [(("k"), ("v"))]
        conversation_history := [(("u"), ("a"))] })]
    current_session_id := none
    message_count := 5 }

/-- Concrete state with one recorded turn in session `"s1"`. -/
def stC10 : ChatbotState := (StatefulChatbot.chat constLLM sAnn ("hi") none).1

namespace StatefulChatbot

theorem alistLookup_append {α : Type} (l m : List (String × α)) (k : String) :
    alistLookup (l ++ m) k =
      match alistLookup l k with
      | some v => some v
      | none => alistLookup m k := by
  induction l with
  | nil => rfl
  | cons p rest ih =>
      obtain ⟨a, b⟩ := p
      by_cases h : k = a
      · simp [alistLookup, h]
      · simp [alistLookup, h, ih]

theorem alistLookup_modify {α : Type} (l : List (String × α)) (k : String)
    (f : α → α) :
    alistLookup (alistModify l k f) k = (alistLookup l k).map f := by
  induction l with
  | nil => rfl
  | cons p rest ih =>
      obtain ⟨a, b⟩ := p
      by_cases h : a = k
      · subst h
        simp [alistLookup, alistModify]
      · have h2 : ¬ k = a := fun hh => h hh.symm
        simp only [alistModify, if_neg h, alistLookup, if_neg h2]
        exact ih

theorem alistLookup_append_single {α : Type} (l : List (String × α)) (k : String)
    (v : α) (h : alistLookup l k = none) :
    alistLookup (l ++ [(k, v)]) k = some v := by
  rw [alistLookup_append, h]
  simp [alistLookup]

/-- `start_session` always sets the active pointer. -/
theorem start_session_current (st : ChatbotState) (sid : String)
    (n : Option String) :
    (start_session st sid n).1.current_session_id = some sid := by
  unfold start_session
  dsimp only
  split
  · split <;> rfl
  · rfl

/-- `start_session` always resets the turn counter. -/
theorem start_session_count (st : ChatbotState) (sid : String)
    (n : Option String) :
    (start_session st sid n).1.message_count = 0 := by
  unfold start_session
  dsimp only
  split
  · split <;> rfl
  · rfl

/-- `start_session` never touches the rolling buffer. -/
theorem start_session_buffer (st : ChatbotState) (sid : String)
    (n : Option String) :
    (start_session st sid n).1.session_memory = st.session_memory := by
  unfold start_session
  dsimp only
  split
  · split <;> rfl
  · rfl

/-- `start_session` never touches the standing summary container. -/
theorem start_session_summary (st : ChatbotState) (sid : String)
    (n : Option String) :
    (start_session st sid n).1.summary_memory = st.summary_memory := by
  unfold start_session
  dsimp only
  split
  · split <;> rfl
  · rfl

/-- `start_session` without a truthy name leaves the profile registry alone. -/
theorem start_session_profiles_none (st : ChatbotState) (sid : String) :
    (start_session st sid none).1.user_profiles = st.user_profiles := rfl

/-- `_summarize_conversation` never touches the profile registry. -/
theorem summarize_profiles (llm : LLM) (st : ChatbotState) :
    (_summarize_conversation llm st).1.user_profiles = st.user_profiles := by
  unfold _summarize_conversation
  split <;> rfl

/-- `_summarize_conversation` never moves the active pointer. -/
theorem summarize_current (llm : LLM) (st : ChatbotState) :
    (_summarize_conversation llm st).1.current_session_id =
      st.current_session_id := by
  unfold _summarize_conversation
  split <;> rfl

/-- Over the threshold, `_summarize_conversation` clears the buffer, appends
the model summary of the buffer to the standing summary container, resets the
counter, and returns that summary. -/
theorem summarize_over_threshold (llm : LLM) (st : ChatbotState)
    (h : st.message_count > 10) :
    _summarize_conversation llm st =
      ({ st with
          session_memory := []
          summary_memory := st.summary_memory ++
            [(("Conversation Summary"),
              llm.invoke (summary_prompt (conversationText st.session_memory)))]
          message_count := 0 },
        some (llm.invoke (summary_prompt (conversationText st.session_memory)))) := by
  unfold _summarize_conversation
  rw [if_pos h]
  rfl

/-- At or under the threshold, `_summarize_conversation` is the identity. -/
theorem summarize_under_threshold (llm : LLM) (st : ChatbotState)
    (h : ¬ st.message_count > 10) :
    _summarize_conversation llm st = (st, none) := by
  unfold _summarize_conversation
  rw [if_neg h]

/-- `recordExchange` only touches the profile registry. -/
theorem recordExchange_frame (st : ChatbotState) (m r : String) :
    (recordExchange st m r).session_memory = st.session_memory ∧
    (recordExchange st m r).summary_memory = st.summary_memory ∧
    (recordExchange st m r).current_session_id = st.current_session_id ∧
    (recordExchange st m r).message_count = st.message_count := by
  unfold recordExchange
  split
  · split <;> exact ⟨rfl, rfl, rfl, rfl⟩
  · exact ⟨rfl, rfl, rfl, rfl⟩

/-- When the active session has a profile, `recordExchange` appends the turn
to exactly that profile's history. -/
theorem recordExchange_lookup (st : ChatbotState) (cur m r : String)
    (hc : st.current_session_id = some cur)
    (hm : alistMem st.user_profiles cur = true) :
    alistLookup (recordExchange st m r).user_profiles cur =
      (alistLookup st.user_profiles cur).map
        (fun p => { p with conversation_history :=
            p.conversation_history ++ [(m, r)] }) := by
  unfold recordExchange
  rw [hc]
  simp only [hm, if_pos]
  exact alistLookup_modify _ _ _

/-- When the active session has no profile, `recordExchange` is the identity. -/
theorem recordExchange_nomem (st : ChatbotState) (cur m r : String)
    (hc : st.current_session_id = some cur)
    (hm : alistMem st.user_profiles cur = false) :
    recordExchange st m r = st := by
  unfold recordExchange
  rw [hc]
  simp [hm]

/-- `recordExchange_lookup`, restated over an explicit state literal so it can
be used as a rewrite rule inside unfolded `chat` goals. -/
theorem recordExchange_lookup2 (buf : List String) (sum : List (String × String))
    (prof : List (String × Profile)) (cur : String) (cnt : Nat) (m r : String)
    (hm : alistMem prof cur = true) :
    alistLookup (recordExchange
      { session_memory := buf, summary_memory := sum, user_profiles := prof,
        current_session_id := some cur, message_count := cnt } m r).user_profiles cur =
      (alistLookup prof cur).map
        (fun p => { p with conversation_history :=
            p.conversation_history ++ [(m, r)] }) :=
  recordExchange_lookup _ cur m r rfl hm

/-- `recordExchange_nomem`, restated over an explicit state literal. -/
theorem recordExchange_nomem2 (buf : List String) (sum : List (String × String))
    (prof : List (String × Profile)) (cur : String) (cnt : Nat) (m r : String)
    (hm : alistMem prof cur = false) :
    recordExchange
      { session_memory := buf, summary_memory := sum, user_profiles := prof,
        current_session_id := some cur, message_count := cnt } m r =
      { session_memory := buf, summary_memory := sum, user_profiles := prof,
        current_session_id := some cur, message_count := cnt } :=
  recordExchange_nomem _ cur m r rfl hm

theorem recordExchange_count (st : ChatbotState) (m r : String) :
    (recordExchange st m r).message_count = st.message_count :=
  (recordExchange_frame st m r).2.2.2

theorem recordExchange_summary (st : ChatbotState) (m r : String) :
    (recordExchange st m r).summary_memory = st.summary_memory :=
  (recordExchange_frame st m r).2.1

theorem recordExchange_current (st : ChatbotState) (m r : String) :
    (recordExchange st m r).current_session_id = st.current_session_id :=
  (recordExchange_frame st m r).2.2.1

theorem recordExchange_buffer (st : ChatbotState) (m r : String) :
    (recordExchange st m r).session_memory = st.session_memory :=
  (recordExchange_frame st m r).1

/-- The rolling buffer never exceeds 10 entries after an append. -/
theorem windowAppend_length_le (buf : List String) (x : String) :
    (windowAppend buf x).length ≤ 10 := by
  unfold windowAppend
  dsimp only
  split
  · rename_i h
    rw [List.length_drop]
    omega
  · rename_i h
    omega

/-- Eviction is FIFO: the windowed buffer is a suffix of the unbounded append,
so whatever is dropped comes from the oldest end. -/
theorem windowAppend_suffix (buf : List String) (x : String) :
    (windowAppend buf x).IsSuffix (buf ++ [x]) := by
  unfold windowAppend
  dsimp only
  split
  · exact List.drop_suffix _ _
  · exact List.suffix_refl _

/-- `chat` with no `session_id` argument and a falsy active pointer raises
without touching the state. -/
theorem chat_inactive (llm : LLM) (st : ChatbotState) (msg : String)
    (h : optStrTruthy st.current_session_id = false) :
    chat llm st msg none = (st, Except.error ChatError.invalidState) := by
  unfold chat
  simp only [chatStart, h]
  rfl

/-- `chat` with an explicit `session_id` argument behaves as `chat` with no
argument from the implicitly (re)started state. -/
theorem chat_some_eq (llm : LLM) (st : ChatbotState) (msg sid : String) :
    chat llm st msg (some sid) = chat llm (chatStart st (some sid)) msg none := rfl

/-- A `chat` call that stays at or under the threshold: counter increments,
summary container and active pointer untouched, and the call succeeds. -/
theorem chat_step_no_summary (llm : LLM) (st : ChatbotState) (msg : String)
    (hA : optStrTruthy st.current_session_id = true)
    (hc : ¬ st.message_count + 1 > 10) :
    (chat llm st msg none).1.message_count = st.message_count + 1 ∧
    (chat llm st msg none).1.summary_memory = st.summary_memory ∧
    (chat llm st msg none).1.current_session_id = st.current_session_id ∧
    (∃ x, (chat llm st msg none).2 = Except.ok x) := by
  unfold chat
  simp only [chatStart, hA]
  simp only [_should_summarize, decide_eq_true_eq, hc, Bool.true_eq_false,
    if_false, ite_false, recordExchange_count, recordExchange_summary,
    recordExchange_current]
  exact ⟨trivial, trivial, trivial, _, rfl⟩

/-- A `chat` call that crosses the threshold: the counter resets to 0, the
model summary of the pre-call buffer is appended to the standing summary
container, the active pointer is untouched, and the call succeeds. -/
theorem chat_step_summary (llm : LLM) (st : ChatbotState) (msg : String)
    (hA : optStrTruthy st.current_session_id = true)
    (hc : st.message_count + 1 > 10) :
    (chat llm st msg none).1.message_count = 0 ∧
    (chat llm st msg none).1.summary_memory = st.summary_memory ++
      [(("Conversation Summary"),
        llm.invoke (summary_prompt (conversationText st.session_memory)))] ∧
    (chat llm st msg none).1.current_session_id = st.current_session_id ∧
    (∃ x, (chat llm st msg none).2 = Except.ok x) := by
  unfold chat
  simp only [chatStart, hA]
  have hover := summarize_over_threshold llm
    { st with message_count := st.message_count + 1 } (by simpa using hc)
  simp only [_should_summarize, decide_eq_true_eq, hc, Bool.true_eq_false,
    if_false, ite_false, if_true, ite_true, hover, recordExchange_count,
    recordExchange_summary, recordExchange_current]
  exact ⟨trivial, trivial, trivial, _, rfl⟩

/-- Any successful or failing `chat` call leaves the rolling buffer within its
10-entry bound (the bound is established unconditionally on success). -/
theorem chat_buffer_le (llm : LLM) (st : ChatbotState) (msg : String)
    (sid : Option String) (h : st.session_memory.length ≤ 10) :
    (chat llm st msg sid).1.session_memory.length ≤ 10 := by
  have hbuf : (chatStart st sid).session_memory = st.session_memory := by
    unfold chatStart
    match sid with
    | none => rfl
    | some s =>
        dsimp only
        split
        · rw [start_session_buffer]
        · rfl
  unfold chat
  dsimp only
  split
  · rw [hbuf]
    exact h
  · rw [recordExchange_buffer]
    exact windowAppend_length_le _ _

/-- A successful `chat` call on a session that has a profile appends exactly
the original message and the returned response to that profile. -/
theorem chat_records (llm : LLM) (st : ChatbotState) (msg cur : String)
    (hcur : st.current_session_id = some cur)
    (htr : strTruthy cur = true)
    (hm : alistMem st.user_profiles cur = true) :
    ∃ resp notice,
      (chat llm st msg none).2 = Except.ok (resp, notice) ∧
      alistLookup (chat llm st msg none).1.user_profiles cur =
        (alistLookup st.user_profiles cur).map
          (fun p => { p with conversation_history :=
              p.conversation_history ++ [(msg, resp)] }) := by
  have hA : optStrTruthy st.current_session_id = true := by rw [hcur]; exact htr
  unfold chat
  simp only [chatStart, hA]
  by_cases hth : st.message_count + 1 > 10
  · have hover := summarize_over_threshold llm
      { st with message_count := st.message_count + 1 } (by simpa using hth)
    simp only [_should_summarize, decide_eq_true_eq, hth, Bool.true_eq_false,
      if_false, ite_false, if_true, ite_true, hover]
    rw [hcur]
    refine ⟨_, _, rfl, ?_⟩
    rw [recordExchange_lookup2 _ _ _ _ _ _ _ hm]
  · simp only [_should_summarize, decide_eq_true_eq, hth, Bool.true_eq_false,
      if_false, ite_false]
    rw [hcur]
    refine ⟨_, _, rfl, ?_⟩
    rw [recordExchange_lookup2 _ _ _ _ _ _ _ hm]

/-- A successful `chat` call on a session that has no profile leaves the
profile registry untouched. -/
theorem chat_no_profile (llm : LLM) (st : ChatbotState) (msg cur : String)
    (hcur : st.current_session_id = some cur)
    (htr : strTruthy cur = true)
    (hm : alistMem st.user_profiles cur = false) :
    (chat llm st msg none).1.user_profiles = st.user_profiles ∧
    (∃ x, (chat llm st msg none).2 = Except.ok x) := by
  have hA : optStrTruthy st.current_session_id = true := by rw [hcur]; exact htr
  unfold chat
  simp only [chatStart, hA]
  by_cases hth : st.message_count + 1 > 10
  · have hover := summarize_over_threshold llm
      { st with message_count := st.message_count + 1 } (by simpa using hth)
    simp only [_should_summarize, decide_eq_true_eq, hth, Bool.true_eq_false,
      if_false, ite_false, if_true, ite_true, hover]
    rw [hcur]
    rw [recordExchange_nomem2 _ _ _ _ _ _ _ hm]
    exact ⟨rfl, _, rfl⟩
  · simp only [_should_summarize, decide_eq_true_eq, hth, Bool.true_eq_false,
      if_false, ite_false]
    rw [hcur]
    rw [recordExchange_nomem2 _ _ _ _ _ _ _ hm]
    exact ⟨rfl, _, rfl⟩

end StatefulChatbot

/-- Along a run of `chat` calls on one active session, as long as the counter
stays at or under 10, each call increments the counter by one and leaves the
standing summary container and the active pointer untouched. -/
theorem chatIter_run (llm : LLM) (msg : String) (st : ChatbotState)
    (hA : optStrTruthy st.current_session_id = true)
    (h0 : st.message_count = 0) :
    ∀ n, n ≤ 10 →
      (chatIter llm msg n st).message_count = n ∧
      (chatIter llm msg n st).summary_memory = st.summary_memory ∧
      (chatIter llm msg n st).current_session_id = st.current_session_id := by
  intro n
  induction n with
  | zero => exact fun _ => ⟨h0, rfl, rfl⟩
  | succ k ih =>
      intro hk
      obtain ⟨hc, hs, hcur⟩ := ih (Nat.le_of_succ_le hk)
      have hA2 : optStrTruthy (chatIter llm msg k st).current_session_id = true := by
        rw [hcur]; exact hA
      have hle : ¬ (chatIter llm msg k st).message_count + 1 > 10 := by
        rw [hc]; omega
      obtain ⟨c1, s1, cu1, _⟩ :=
        StatefulChatbot.chat_step_no_summary llm (chatIter llm msg k st) msg hA2 hle
      refine ⟨?_, ?_, ?_⟩
      · show (StatefulChatbot.chat llm (chatIter llm msg k st) msg none).1.message_count = k + 1
        rw [c1, hc]
      · show (StatefulChatbot.chat llm (chatIter llm msg k st) msg
          none).1.summary_memory = st.summary_memory
        rw [s1, hs]
      · show (StatefulChatbot.chat llm (chatIter llm msg k st) msg
          none).1.current_session_id = st.current_session_id
        rw [cu1, hcur]

/-- C9: for every state and session id, `start_session` sets the active
session pointer to that id and resets the turn counter to 0, but leaves the
rolling message buffer unchanged. -/
theorem claim9_start_session_frame (st : ChatbotState) (sid : String)
    (n : Option String) :
    (StatefulChatbot.start_session st sid n).1.current_session_id = some sid ∧
    (StatefulChatbot.start_session st sid n).1.message_count = 0 ∧
    (StatefulChatbot.start_session st sid n).1.session_memory = st.session_memory :=
  ⟨StatefulChatbot.start_session_current st sid n,
   StatefulChatbot.start_session_count st sid n,
   StatefulChatbot.start_session_buffer st sid n⟩

/-- C5: a `chat` call made when no session is active and no `session_id`
argument is supplied fails with the invalid-state error and leaves the whole
state unchanged; the caller recovers by starting a session (any nonempty id),
after which `chat` succeeds. -/
theorem claim5_invalid_state (llm : LLM) (st : ChatbotState) (msg sid : String)
    (h : st.current_session_id = none) (hs : strTruthy sid = true) :
    StatefulChatbot.chat llm st msg none =
      (st, Except.error StatefulChatbot.ChatError.invalidState) ∧
    (∃ x, (StatefulChatbot.chat llm
      (StatefulChatbot.start_session st sid none).1 msg none).2 = Except.ok x) := by
  constructor
  · apply StatefulChatbot.chat_inactive
    rw [h]
    rfl
  · have hA : optStrTruthy
        (StatefulChatbot.start_session st sid none).1.current_session_id = true := by
      rw [StatefulChatbot.start_session_current]
      exact hs
    have hle : ¬ (StatefulChatbot.start_session st sid none).1.message_count + 1 > 10 := by
      rw [StatefulChatbot.start_session_count]
      omega
    exact (StatefulChatbot.chat_step_no_summary llm _ msg hA hle).2.2.2

/-- C5 witness at a fresh chatbot with message `"hi"` and recovery session
`"s1"`. -/
theorem claim5_invalid_state_witness :
    StatefulChatbot.chat constLLM initState ("hi") none =
      (initState, Except.error StatefulChatbot.ChatError.invalidState) ∧
    (StatefulChatbot.chat constLLM
      (StatefulChatbot.start_session initState ("s1") none).1 ("hi") none).2.isOk = true := by
  obtain ⟨h1, x, hx⟩ :=
    claim5_invalid_state constLLM initState ("hi") ("s1") (by decide) (by decide)
  refine ⟨h1, ?_⟩
  rw [hx]
  rfl

/-- C6: the rolling buffer never exceeds 10 entries — a single `chat` call
preserves the bound, every run of `chat` calls preserves it, a raw buffer
append lands under the bound, and eviction is FIFO (the kept window is a
suffix of the append, so only oldest entries are dropped). -/
theorem claim6_buffer_bound (llm : LLM) (st : ChatbotState) (msg x : String)
    (buf : List String) (sid : Option String)
    (h : st.session_memory.length ≤ 10) :
    ((StatefulChatbot.chat llm st msg sid).1.session_memory.length ≤ 10) ∧
    (∀ n, (chatIter llm msg n st).session_memory.length ≤ 10) ∧
    ((windowAppend buf x).length ≤ 10) ∧
    (windowAppend buf x).IsSuffix (buf ++ [x]) := by
  refine ⟨StatefulChatbot.chat_buffer_le llm st msg sid h, ?_, ?_, ?_⟩
  · intro n
    induction n with
    | zero => exact h
    | succ k ih => exact StatefulChatbot.chat_buffer_le llm _ msg none ih
  · exact StatefulChatbot.windowAppend_length_le buf x
  · exact StatefulChatbot.windowAppend_suffix buf x

/-- C6 witness: a 12-call run stays within the bound, and a concrete
11-element append keeps the newest 10 as a suffix. -/
theorem claim6_buffer_bound_witness :
    ((chatIter constLLM ("hi") 12 sAnn).session_memory.length ≤ 10) ∧
    (windowAppend [("a"), ("b"), ("c"), ("d"), ("e"), ("f"), ("g"), ("h"),
      ("i"), ("j")] ("z")).IsSuffix
      ([("a"), ("b"), ("c"), ("d"), ("e"), ("f"), ("g"), ("h"), ("i"), ("j")] ++
        [("z")]) := by
  have h := claim6_buffer_bound constLLM sAnn ("hi") ("z")
    ([("a"), ("b"), ("c"), ("d"), ("e"), ("f"), ("g"), ("h"), ("i"), ("j")])
    none (by decide)
  exact ⟨h.2.1 12, h.2.2.2⟩

/-- Falsity of membership is absence of the key. -/
theorem alistMem_false_iff {α : Type} (l : List (String × α)) (k : String) :
    alistMem l k = false ↔ alistLookup l k = none := by
  unfold alistMem
  cases alistLookup l k <;> simp

/-- C1: `_should_summarize` is true iff the turn counter is strictly greater
than 10; consequently, in a run of repeated `chat` calls on one active
session starting from a reset counter, the first 10 calls do not summarize
(the counter counts them and the standing summary container is untouched),
and the 11th call summarizes — exactly one entry is appended to the standing
summary container — after which the counter is 0 again. -/
theorem claim1_summarize_trigger (llm : LLM) (st : ChatbotState) (msg : String) :
    (StatefulChatbot._should_summarize st = true ↔ st.message_count > 10) ∧
    (optStrTruthy st.current_session_id = true → st.message_count = 0 →
      ((∀ n, n ≤ 10 → (chatIter llm msg n st).message_count = n ∧
        (chatIter llm msg n st).summary_memory = st.summary_memory) ∧
      (∃ s, (chatIter llm msg 11 st).message_count = 0 ∧
        (chatIter llm msg 11 st).summary_memory = st.summary_memory ++
          [(("Conversation Summary"), s)]))) := by
  constructor
  · simp [StatefulChatbot._should_summarize]
  · intro hA h0
    have hrun := chatIter_run llm msg st hA h0
    constructor
    · intro n hn
      exact ⟨(hrun n hn).1, (hrun n hn).2.1⟩
    · obtain ⟨hc10, hs10, hcur10⟩ := hrun 10 (by omega)
      have hA10 : optStrTruthy (chatIter llm msg 10 st).current_session_id = true := by
        rw [hcur10]; exact hA
      have hgt : (chatIter llm msg 10 st).message_count + 1 > 10 := by
        rw [hc10]
        omega
      obtain ⟨c1, s1, _, _⟩ :=
        StatefulChatbot.chat_step_summary llm (chatIter llm msg 10 st) msg hA10 hgt
      refine ⟨llm.invoke (StatefulChatbot.summary_prompt
        (StatefulChatbot.conversationText (chatIter llm msg 10 st).session_memory)),
        ?_, ?_⟩
      · show (StatefulChatbot.chat llm (chatIter llm msg 10 st) msg
          none).1.message_count = 0
        exact c1
      · show (StatefulChatbot.chat llm (chatIter llm msg 10 st) msg
          none).1.summary_memory = _
        rw [s1, hs10]

/-- C1 witness: run from the started session `sAnn`; the counter reaches 10
after ten calls, and the 11th call leaves counter 0 with the summary saved. -/
theorem claim1_summarize_trigger_witness :
    (chatIter constLLM ("hi") 10 sAnn).message_count = 10 ∧
    (chatIter constLLM ("hi") 11 sAnn).message_count = 0 := by
  have h := (claim1_summarize_trigger constLLM sAnn ("hi")).2 (by decide) (by decide)
  refine ⟨(h.1 10 (by omega)).1, ?_⟩
  obtain ⟨s, hs, _⟩ := h.2
  exact hs

/-- C2 fails as stated: at `stC2` (turn counter 11, one previously saved
summary), summarization appends the new summary but does not empty the
standing summary container first — the old entry survives, so the container
does not hold only the new summary. -/
theorem claim2_counterexample :
    (StatefulChatbot._summarize_conversation constLLM stC2).1.summary_memory =
      [(("Conversation Summary"), ("old")), (("Conversation Summary"), ("S"))] ∧
    (StatefulChatbot._summarize_conversation constLLM stC2).1.summary_memory ≠
      [(("Conversation Summary"), ("S"))] := by
  exact ⟨rfl, by decide⟩

/-- C2 (amended): when the turn counter exceeds 10, the side effects of
`_summarize_conversation` are exactly: the rolling buffer is emptied, the new
summary entry is appended to the standing summary container (which is NOT
cleared — prior summaries are retained), the counter is reset to 0, and the
profiles and active pointer are untouched; the new summary is returned. -/
theorem claim2_summarize_effects (llm : LLM) (st : ChatbotState)
    (h : st.message_count > 10) :
    (StatefulChatbot._summarize_conversation llm st).1.session_memory = [] ∧
    (StatefulChatbot._summarize_conversation llm st).1.summary_memory =
      st.summary_memory ++ [(("Conversation Summary"),
        llm.invoke (StatefulChatbot.summary_prompt
          (StatefulChatbot.conversationText st.session_memory)))] ∧
    (StatefulChatbot._summarize_conversation llm st).1.message_count = 0 ∧
    (StatefulChatbot._summarize_conversation llm st).1.user_profiles =
      st.user_profiles ∧
    (StatefulChatbot._summarize_conversation llm st).1.current_session_id =
      st.current_session_id ∧
    (StatefulChatbot._summarize_conversation llm st).2 =
      some (llm.invoke (StatefulChatbot.summary_prompt
        (StatefulChatbot.conversationText st.session_memory))) := by
  rw [StatefulChatbot.summarize_over_threshold llm st h]
  exact ⟨rfl, rfl, rfl, rfl, rfl, rfl⟩

/-- C2 witness at the concrete over-threshold state `stC2`. -/
theorem claim2_summarize_effects_witness :
    (StatefulChatbot._summarize_conversation constLLM stC2).1.session_memory = [] ∧
    (StatefulChatbot._summarize_conversation constLLM stC2).1.message_count = 0 := by
  have h := claim2_summarize_effects constLLM stC2 (by decide)
  exact ⟨h.1, h.2.2.1⟩

/-- C3 fails as stated: starting session `"s1"` with no user name references
the session (it becomes active) yet creates no profile, so `get_user_profile`
still returns an absent result. -/
theorem claim3_counterexample :
    s0.current_session_id = some ("s1") ∧
    StatefulChatbot.get_user_profile s0 ("s1") = none := by
  exact ⟨rfl, rfl⟩

/-- C3 (amended): `get_user_profile` is absent on a fresh chatbot; it is
present after any preference update for that id, and after any
`start_session` with a nonempty user name; `start_session` without a name
leaves profile presence exactly as it was (it creates nothing). -/
theorem claim3_profile_presence (st : ChatbotState) (sid k v n : String)
    (hn : strTruthy n = true) :
    StatefulChatbot.get_user_profile initState sid = none ∧
    (StatefulChatbot.get_user_profile
      (StatefulChatbot.update_user_preference st sid k v) sid).isSome = true ∧
    (StatefulChatbot.get_user_profile
      (StatefulChatbot.start_session st sid (some n)).1 sid).isSome = true ∧
    (StatefulChatbot.get_user_profile
      (StatefulChatbot.start_session st sid none).1 sid).isSome =
      (StatefulChatbot.get_user_profile st sid).isSome := by
  refine ⟨rfl, ?_, ?_, ?_⟩
  · unfold StatefulChatbot.update_user_preference StatefulChatbot.get_user_profile
    dsimp only
    by_cases hm : alistMem st.user_profiles sid = false
    · rw [if_pos hm, StatefulChatbot.alistLookup_modify,
        StatefulChatbot.alistLookup_append_single _ _ _
          ((alistMem_false_iff _ _).mp hm)]
      rfl
    · rw [if_neg hm, StatefulChatbot.alistLookup_modify]
      have hsome : alistMem st.user_profiles sid = true := by
        revert hm
        cases alistMem st.user_profiles sid <;> simp
      unfold alistMem at hsome
      cases hl : alistLookup st.user_profiles sid
      · rw [hl] at hsome
        simp at hsome
      · simp
  · unfold StatefulChatbot.start_session StatefulChatbot.get_user_profile
    dsimp only
    rw [if_pos (show optStrTruthy (some n) = true from hn)]
    by_cases hm : alistMem st.user_profiles sid = false
    · rw [if_pos hm,
        StatefulChatbot.alistLookup_append_single _ _ _
          ((alistMem_false_iff _ _).mp hm)]
      rfl
    · rw [if_neg hm, StatefulChatbot.alistLookup_modify]
      have hsome : alistMem st.user_profiles sid = true := by
        revert hm
        cases alistMem st.user_profiles sid <;> simp
      unfold alistMem at hsome
      cases hl : alistLookup st.user_profiles sid
      · rw [hl] at hsome
        simp at hsome
      · simp
  · unfold StatefulChatbot.get_user_profile
    rw [StatefulChatbot.start_session_profiles_none]

/-- C3 witness at a fresh chatbot, session `"s2"`, preference `color=blue`,
name `"Bob"`. -/
theorem claim3_profile_presence_witness :
    StatefulChatbot.get_user_profile initState ("s2") = none ∧
    (StatefulChatbot.get_user_profile
      (StatefulChatbot.update_user_preference initState ("s2") ("color") ("blue"))
      ("s2")).isSome = true ∧
    (StatefulChatbot.get_user_profile
      (StatefulChatbot.start_session initState ("s2") (some ("Bob"))).1
      ("s2")).isSome = true := by
  have h := claim3_profile_presence initState ("s2") ("color") ("blue") ("Bob")
    (by decide)
  exact ⟨h.1, h.2.1, h.2.2.1⟩

/-- C4 fails as stated: with session `"s1"` active but started without a name
(so it has no profile), a `chat` call succeeds and returns the response, yet
the session history does not grow — no entry is recorded at all. -/
theorem claim4_counterexample :
    (StatefulChatbot.chat constLLM s0 ("hi") none).2 = Except.ok (("R"), none) ∧
    StatefulChatbot.get_conversation_history
      (StatefulChatbot.chat constLLM s0 ("hi") none).1 (some ("s1")) = [] := by
  exact ⟨rfl, rfl⟩

/-- C4 (amended): on every successful `chat` call whose active session has an
existing profile, the original user message (not the prefixed one) together
with the returned response is appended as exactly one entry to that session's
history; when the active session has no profile the exchange is not recorded. -/
theorem claim4_chat_records (llm : LLM) (st : ChatbotState) (msg cur : String)
    (hcur : st.current_session_id = some cur) (htr : strTruthy cur = true)
    (hm : alistMem st.user_profiles cur = true) :
    ∃ resp notice,
      (StatefulChatbot.chat llm st msg none).2 = Except.ok (resp, notice) ∧
      historyOf (StatefulChatbot.chat llm st msg none).1 cur =
        historyOf st cur ++ [(msg, resp)] := by
  obtain ⟨resp, notice, hok, hlk⟩ :=
    StatefulChatbot.chat_records llm st msg cur hcur htr hm
  refine ⟨resp, notice, hok, ?_⟩
  unfold historyOf StatefulChatbot.get_user_profile
  rw [hlk]
  unfold alistMem at hm
  cases hl : alistLookup st.user_profiles cur
  · rw [hl] at hm
    simp at hm
  · simp

/-- C4 witness at the profiled session `sAnn`. -/
theorem claim4_chat_records_witness :
    (StatefulChatbot.chat constLLM sAnn ("hi") none).2 = Except.ok (("R"), none) ∧
    historyOf (StatefulChatbot.chat constLLM sAnn ("hi") none).1 ("s1") =
      historyOf sAnn ("s1") ++ [(("hi"), ("R"))] := by
  obtain ⟨resp, notice, hok, hrec⟩ :=
    claim4_chat_records constLLM sAnn ("hi") ("s1") (by decide) (by decide) (by decide)
  have hev : (StatefulChatbot.chat constLLM sAnn ("hi") none).2 =
      Except.ok ((("R") : String), (none : Option String)) := rfl
  have hval := hok.symm.trans hev
  simp only [Except.ok.injEq, Prod.mk.injEq] at hval
  obtain ⟨hr, hn⟩ := hval
  subst hr
  subst hn
  exact ⟨hok, hrec⟩

/-- C7 fails as stated: the empty string differs from the (absent) active
session, yet `chat` does not implicitly start it — the call fails and the
pointer does not become the given id. -/
theorem claim7_counterexample :
    initState.current_session_id ≠ some ("") ∧
    StatefulChatbot.chat constLLM initState ("hello") (some ("")) =
      (initState, Except.error StatefulChatbot.ChatError.invalidState) := by
  exact ⟨by decide, rfl⟩

/-- C7 (amended): a `chat` call whose nonempty `session_id` argument differs
from the active session implicitly starts that session — the call succeeds,
the active pointer equals that id afterwards — and the implicit restart
passes no name, so profile presence and the stored display name of that
session are unchanged. -/
theorem claim7_implicit_start (llm : LLM) (st : ChatbotState) (msg sid : String)
    (h1 : strTruthy sid = true) (h2 : st.current_session_id ≠ some sid) :
    (StatefulChatbot.chat llm st msg (some sid)).1.current_session_id = some sid ∧
    (∃ x, (StatefulChatbot.chat llm st msg (some sid)).2 = Except.ok x) ∧
    (StatefulChatbot.get_user_profile
        (StatefulChatbot.chat llm st msg (some sid)).1 sid).isSome =
      (StatefulChatbot.get_user_profile st sid).isSome ∧
    (StatefulChatbot.get_user_profile
        (StatefulChatbot.chat llm st msg (some sid)).1 sid).map Profile.name =
      (StatefulChatbot.get_user_profile st sid).map Profile.name := by
  have hstart : StatefulChatbot.chatStart st (some sid) =
      (StatefulChatbot.start_session st sid none).1 := by
    unfold StatefulChatbot.chatStart
    dsimp only
    rw [if_pos ⟨h1, h2⟩]
  rw [StatefulChatbot.chat_some_eq, hstart]
  have hcur : (StatefulChatbot.start_session st sid none).1.current_session_id =
      some sid := StatefulChatbot.start_session_current st sid none
  have hprof : (StatefulChatbot.start_session st sid none).1.user_profiles =
      st.user_profiles := StatefulChatbot.start_session_profiles_none st sid
  have hA : optStrTruthy
      (StatefulChatbot.start_session st sid none).1.current_session_id = true := by
    rw [hcur]; exact h1
  have hle : ¬ (StatefulChatbot.start_session st sid none).1.message_count + 1 > 10 := by
    rw [StatefulChatbot.start_session_count]
    omega
  obtain ⟨_, _, hcu, hok⟩ := StatefulChatbot.chat_step_no_summary llm
    (StatefulChatbot.start_session st sid none).1 msg hA hle
  refine ⟨by rw [hcu, hcur], hok, ?_⟩
  by_cases hm : alistMem (StatefulChatbot.start_session st sid none).1.user_profiles
      sid = true
  · obtain ⟨resp, notice, _, hlk⟩ := StatefulChatbot.chat_records llm
      (StatefulChatbot.start_session st sid none).1 msg sid hcur h1 hm
    unfold StatefulChatbot.get_user_profile
    rw [hlk, hprof]
    constructor
    · cases alistLookup st.user_profiles sid <;> rfl
    · cases alistLookup st.user_profiles sid <;> rfl
  · have hm2 : alistMem (StatefulChatbot.start_session st sid none).1.user_profiles
        sid = false := by
      revert hm
      cases alistMem (StatefulChatbot.start_session st sid none).1.user_profiles sid <;>
        simp
    obtain ⟨hup, _⟩ := StatefulChatbot.chat_no_profile llm
      (StatefulChatbot.start_session st sid none).1 msg sid hcur h1 hm2
    unfold StatefulChatbot.get_user_profile
    rw [hup, hprof]
    exact ⟨rfl, rfl⟩

/-- C7 witness: `chat` with never-started session `"s2"` succeeds and moves
the pointer there. -/
theorem claim7_implicit_start_witness :
    (StatefulChatbot.chat constLLM initState ("hello") (some ("s2"))).1.current_session_id =
      some ("s2") ∧
    (StatefulChatbot.chat constLLM initState ("hello") (some ("s2"))).2.isOk = true := by
  obtain ⟨hp, ⟨x, hx⟩, _, _⟩ :=
    claim7_implicit_start constLLM initState ("hello") ("s2") (by decide) (by decide)
  refine ⟨hp, ?_⟩
  rw [hx]
  rfl

/-- C8 fails as stated: session `""` has an existing profile with nonempty
history, and the counter is 5, yet `clear_memory` on that session is a no-op
(the empty id is falsy, and no session is active), so nothing is cleared and
the counter is not reset. -/
theorem claim8_counterexample :
    alistMem stC8.user_profiles ("") = true ∧
    StatefulChatbot.clear_memory stC8 (some ("")) = stC8 ∧
    (StatefulChatbot.clear_memory stC8 (some (""))).message_count = 5 ∧
    historyOf (StatefulChatbot.clear_memory stC8 (some (""))) ("") =
      [(("u"), ("a"))] := by
  exact ⟨rfl, rfl, rfl, rfl⟩

/-- C8 (amended): for every session with a nonempty id and an existing
profile, `clear_memory` with that id empties the rolling buffer, the standing
summary container, and the profile's history, and resets the turn counter to
0, while leaving the profile's preferences and display name unchanged. -/
theorem claim8_clear_memory (st : ChatbotState) (sid : String)
    (h1 : strTruthy sid = true) (h2 : alistMem st.user_profiles sid = true) :
    (StatefulChatbot.clear_memory st (some sid)).session_memory = [] ∧
    (StatefulChatbot.clear_memory st (some sid)).summary_memory = [] ∧
    historyOf (StatefulChatbot.clear_memory st (some sid)) sid = [] ∧
    (StatefulChatbot.clear_memory st (some sid)).message_count = 0 ∧
    (StatefulChatbot.get_user_profile
        (StatefulChatbot.clear_memory st (some sid)) sid).map Profile.preferences =
      (StatefulChatbot.get_user_profile st sid).map Profile.preferences ∧
    (StatefulChatbot.get_user_profile
        (StatefulChatbot.clear_memory st (some sid)) sid).map Profile.name =
      (StatefulChatbot.get_user_profile st sid).map Profile.name := by
  have htarget : pyOrOpt (some sid) st.current_session_id = some sid := by
    unfold pyOrOpt
    rw [if_pos (show optStrTruthy (some sid) = true from h1)]
  unfold StatefulChatbot.clear_memory
  rw [htarget]
  dsimp only
  rw [if_pos (show optStrTruthy (some sid) = true from h1), if_pos h2]
  unfold historyOf StatefulChatbot.get_user_profile
  dsimp only
  rw [StatefulChatbot.alistLookup_modify]
  unfold alistMem at h2
  cases hl : alistLookup st.user_profiles sid
  · rw [hl] at h2
    simp at h2
  · exact ⟨rfl, rfl, rfl, rfl, rfl, rfl⟩

/-- C8 witness at a concrete profiled session. -/
theorem claim8_clear_memory_witness :
    (StatefulChatbot.clear_memory
      (StatefulChatbot.update_user_preference sAnn ("s1") ("color") ("blue"))
      (some ("s1"))).message_count = 0 ∧
    historyOf (StatefulChatbot.clear_memory
      (StatefulChatbot.update_user_preference sAnn ("s1") ("color") ("blue"))
      (some ("s1"))) ("s1") = [] ∧
    (StatefulChatbot.get_user_profile
        (StatefulChatbot.clear_memory
          (StatefulChatbot.update_user_preference sAnn ("s1") ("color") ("blue"))
          (some ("s1"))) ("s1")).map Profile.preferences =
      (StatefulChatbot.get_user_profile
        (StatefulChatbot.update_user_preference sAnn ("s1") ("color") ("blue"))
        ("s1")).map Profile.preferences := by
  have h := claim8_clear_memory
    (StatefulChatbot.update_user_preference sAnn ("s1") ("color") ("blue"))
    ("s1") (by decide) (by decide)
  exact ⟨h.2.2.2.1, h.2.2.1, h.2.2.2.2.1⟩

/-- C10 fails as stated: the empty-string session id was never referenced,
yet `get_conversation_history` with it falls back (the empty id is falsy) to
the active session `"s1"` and returns that session's nonempty history instead
of an empty list. -/
theorem claim10_counterexample :
    alistMem stC10.user_profiles ("") = false ∧
    StatefulChatbot.get_conversation_history stC10 (some ("")) =
      [(("hi"), ("R"))] := by
  exact ⟨rfl, rfl⟩

/-- C10 (amended): `get_conversation_history` is total and read-only (it is a
pure function of the state); for a nonempty session id with no profile it
returns the empty list, and with no argument (or an empty-string argument)
while no session is active it returns the empty list. -/
theorem claim10_history_total (st : ChatbotState) (sid : String) :
    (strTruthy sid = true → alistMem st.user_profiles sid = false →
      StatefulChatbot.get_conversation_history st (some sid) = []) ∧
    (st.current_session_id = none →
      StatefulChatbot.get_conversation_history st none = [] ∧
      StatefulChatbot.get_conversation_history st (some ("")) = []) := by
  constructor
  · intro h1 h2
    unfold StatefulChatbot.get_conversation_history pyOrOpt
    rw [if_pos (show optStrTruthy (some sid) = true from h1)]
    dsimp only
    rw [if_neg (fun hand => Bool.false_ne_true (h2.symm.trans hand.2))]
  · intro hcur
    unfold StatefulChatbot.get_conversation_history
    rw [hcur]
    exact ⟨rfl, rfl⟩

/-- C10 witness at a fresh chatbot and the unreferenced id `"zz"`. -/
theorem claim10_history_total_witness :
    StatefulChatbot.get_conversation_history initState (some ("zz")) = [] ∧
    StatefulChatbot.get_conversation_history initState none = [] := by
  refine ⟨(claim10_history_total initState ("zz")).1 (by decide) (by decide), ?_⟩
  exact ((claim10_history_total initState ("zz")).2 (by decide)).1
